import Mathlib

/-!
Shallow embedding of the gns3-server controller core given in the sources:

* `gns3server/schemas/config.py` — the `ServerSettings` pydantic model:
  per-field bound checks and the cross-field validators
  (`console_port_range`, `vnc_console_port_range`, `validate_enable_ssl`),
  and the `pre` validators splitting delimiter-separated path lists.
* `gns3server/controller/vm.py` — the `VM` proxy class: constructor
  defaults, the `create()` coroutine building the POST request, and
  `__json__` serialization.
* the project-file sandbox exercised by
  `tests/api/routes/compute/test_projects.py` (the guard itself is not
  among the given sources and is modelled from the specification).

Python dicts are embedded as insertion-ordered association lists,
Python `None`-able values as `Option`, and machine-independent Python
integers as `Int`.
-/

namespace GNS3

/-! ## Configuration schema (`gns3server/schemas/config.py`, `ServerSettings`) -/

/-- The fields of `ServerSettings` relevant to the port-range and SSL
validators.  `certfile`/`certkey` default to `None` in the source
(`FilePath = None`); they are embedded as `Option String`, `none`
standing for the unset (falsy) value. -/
structure ServerSettings where
  certfile : Option String
  certkey : Option String
  enable_ssl : Bool
  console_start_port_range : Int
  console_end_port_range : Int
  vnc_console_start_port_range : Int
  vnc_console_end_port_range : Int
  udp_start_port_range : Int
  udp_end_port_range : Int
deriving DecidableEq, Repr

/-- `Field(..., gt=0, le=65535)` — the per-field bound on
`console_start_port_range`, `console_end_port_range`,
`udp_start_port_range` and `udp_end_port_range`. -/
def portFieldOk (v : Int) : Bool :=
  0 < v && v ≤ 65535

/-- `Field(..., ge=5900, le=65535)` — the per-field bound on
`vnc_console_start_port_range` and `vnc_console_end_port_range`. -/
def vncPortFieldOk (v : Int) : Bool :=
  5900 ≤ v && v ≤ 65535

/-- `@validator("console_end_port_range")` `console_port_range`:
raises unless the end is strictly greater than the start. -/
def console_port_range (start stop : Int) : Bool :=
  start < stop

/-- `@validator("vnc_console_end_port_range")` `vnc_console_port_range`:
raises unless the end is strictly greater than the start. -/
def vnc_console_port_range (start stop : Int) : Bool :=
  start < stop

/-- `@validator("enable_ssl")` `validate_enable_ssl`: when `enable_ssl`
is true, both `certfile` and `certkey` must be set (non-falsy). -/
def validate_enable_ssl (v : Bool) (certfile certkey : Option String) : Bool :=
  if v then certfile.isSome && certkey.isSome else true

/-- Validation of a `ServerSettings` record: every per-field bound and
every cross-field validator of the source must pass.  Note the source
has no ordering validator for the UDP pair — only the two per-field
bound checks apply to `udp_start_port_range`/`udp_end_port_range`. -/
def serverSettingsValid (s : ServerSettings) : Bool :=
  portFieldOk s.console_start_port_range &&
  portFieldOk s.console_end_port_range &&
  console_port_range s.console_start_port_range s.console_end_port_range &&
  vncPortFieldOk s.vnc_console_start_port_range &&
  vncPortFieldOk s.vnc_console_end_port_range &&
  vnc_console_port_range s.vnc_console_start_port_range s.vnc_console_end_port_range &&
  portFieldOk s.udp_start_port_range &&
  portFieldOk s.udp_end_port_range &&
  validate_enable_ssl s.enable_ssl s.certfile s.certkey

/-- The field defaults declared in the source: `certfile`/`certkey`
unset, `enable_ssl=False`, console range 5000–10000, VNC range
5900–10000, UDP range 10000–30000. -/
def defaultServerSettings : ServerSettings :=
  { certfile := none
    certkey := none
    enable_ssl := false
    console_start_port_range := 5000
    console_end_port_range := 10000
    vnc_console_start_port_range := 5900
    vnc_console_end_port_range := 10000
    udp_start_port_range := 10000
    udp_end_port_range := 30000 }

/-- An otherwise-default configuration whose UDP range is inverted
(`udp_end_port_range < udp_start_port_range`). -/
def invertedUdpSettings : ServerSettings :=
  { defaultServerSettings with
    udp_start_port_range := 20000
    udp_end_port_range := 15000 }

/-- Defaults with the VNC start bound lowered below 5900. -/
def vncBelow5900Settings : ServerSettings :=
  { defaultServerSettings with
    vnc_console_start_port_range := 5899 }

/-- Defaults with the console and UDP bounds pushed to the extremes of
1..65535 (well below 5900 at the low end). -/
def lowConsoleUdpSettings : ServerSettings :=
  { defaultServerSettings with
    console_start_port_range := 1
    console_end_port_range := 65535
    udp_start_port_range := 1
    udp_end_port_range := 65535 }

/-! ## Path-list `pre` validators (`ServerSettings`) -/

/-- `@validator("additional_images_paths", pre=True)`
`split_additional_images_paths`: a truthy (non-empty) raw string is
split on `";"` (Python `str.split(";")`, keeping empty segments), a
falsy one yields `list()`; a missing key takes the `default_factory`
empty list.  The Python string is embedded as its character list. -/
def split_additional_images_paths (v : Option (List Char)) : List (List Char) :=
  match v with
  | none => []
  | some s => if s = [] then [] else s.splitOn ';'

/-- `@validator("allowed_interfaces", pre=True)`
`split_allowed_interfaces`: same shape with delimiter `","`. -/
def split_allowed_interfaces (v : Option (List Char)) : List (List Char) :=
  match v with
  | none => []
  | some s => if s = [] then [] else s.splitOn ','

/-! ## Project file guard

Modelled from the spec: the compute-side project file routes
(`get_compute_project_file` / `write_compute_project_file`) and the
path guard they use are not among the given sources — only
`tests/api/routes/compute/test_projects.py` exercises them.  The
definitions below follow the specification's `ProjectFileGuard`
contract: normalize the requested project-relative path, reject any
path that escapes the project root, and report rejection with the same
not-found outcome as a genuinely missing file. -/

/-- Modelled from the spec: normalization of a requested
project-relative path, given as segments.  `"."` segments are dropped,
`".."` pops the last kept segment, and a `".."` with nothing left to
pop would resolve outside the project root: the path escapes and
resolution fails. -/
def normalizeFrom : List String → List String → Option (List String)
  | acc, [] => some acc.reverse
  | acc, "." :: rest => normalizeFrom acc rest
  | acc, ".." :: rest =>
      match acc with
      | [] => none
      | _ :: acc' => normalizeFrom acc' rest
  | acc, seg :: rest => normalizeFrom (seg :: acc) rest

/-- Modelled from the spec: `resolve` of `ProjectFileGuard` — the
requested path resolved against the project root, `none` when it
escapes the root. -/
def resolvePath (requested : List String) : Option (List String) :=
  normalizeFrom [] requested

/-- The externally observable outcome of a project-file operation:
success with a value, or the single not-found outcome (HTTP 404). -/
inductive FileOutcome (α : Type) where
  | ok : α → FileOutcome α
  | notFound : FileOutcome α
deriving DecidableEq, Repr

/-- The project directory contents: resolved path segments mapped to
file contents. -/
abbrev ProjectFS := List (List String × String)

/-- Modelled from the spec: the file read operation
(`GET /projects/{project_id}/files/{file_path}`).  A path that escapes
the root and a missing file both yield the not-found outcome. -/
def readProjectFile (fs : ProjectFS) (requested : List String) : FileOutcome String :=
  match resolvePath requested with
  | none => FileOutcome.notFound
  | some p =>
      match fs.lookup p with
      | none => FileOutcome.notFound
      | some contents => FileOutcome.ok contents

/-- Insert-or-replace of a file in the project directory. -/
def fsWrite : ProjectFS → List String → String → ProjectFS
  | [], p, c => [(p, c)]
  | (p', c') :: rest, p, c =>
      if p' = p then (p', c) :: rest else (p', c') :: fsWrite rest p c

/-- Modelled from the spec: the file write operation
(`POST /projects/{project_id}/files/{file_path}`): creates or
overwrites the file at the resolved path (204, returning the updated
directory), and yields the same not-found outcome as a read of a
missing file when the path escapes the root. -/
def writeProjectFile (fs : ProjectFS) (requested : List String) (contents : String) :
    FileOutcome ProjectFS :=
  match resolvePath requested with
  | none => FileOutcome.notFound
  | some p => FileOutcome.ok (fsWrite fs p contents)

/-! ## The VM proxy (`gns3server/controller/vm.py`) -/

/-- A Python value as it appears in the VM payload/serialization: a
string, an unbounded integer, `None`, or a nested dict (embedded as an
insertion-ordered association list). -/
inductive PValue where
  | str : String → PValue
  | int : Int → PValue
  | pynone : PValue
  | dict : List (String × PValue) → PValue

/-- A Python dict of payload values. -/
abbrev PDict := List (String × PValue)

/-- `d[k] = v` on a Python dict: an existing key keeps its position and
gets the new value; a new key is appended (CPython insertion order). -/
def dictSet : PDict → String → PValue → PDict
  | [], k, v => [(k, v)]
  | (k', v') :: rest, k, v =>
      if k' = k then (k', v) :: rest else (k', v') :: dictSet rest k v

/-- An optional string rendered as a payload value (`None` → `pynone`). -/
def optStr : Option String → PValue
  | none => PValue.pynone
  | some s => PValue.str s

/-- An optional integer rendered as a payload value (`None` → `pynone`). -/
def optInt : Option Int → PValue
  | none => PValue.pynone
  | some n => PValue.int n

/-- `"{}".format(x)` on an optional string: Python renders `None` as
`"None"`. -/
def pyFormat : Option String → String
  | none => "None"
  | some s => s

/-- The owning project, as the VM uses it: only its `id`. -/
structure Project where
  id : String

/-- The hypervisor (compute) server, as the VM uses it: only its `id`
(its `post` method is represented by the request `create` builds). -/
structure Hypervisor where
  id : String

/-- The state of a `VM` instance: the instance attributes set by
`__init__`. -/
structure VM where
  _project : Project
  _hypervisor : Hypervisor
  _id : String
  _name : Option String
  _vm_type : Option String
  _console : Option Int
  _console_type : String
  _properties : PDict

/-- `VM.__init__`.  `fresh_uuid` stands for the value of
`str(uuid.uuid4())` drawn when `vm_id` is `None`.  The optional
parameters carry the source defaults: `vm_id=None`, `vm_type=None`,
`name=None`, `console=None`, `console_type="telnet"`, `properties={}`
(the shared mutable default dict, initially empty). -/
def VM.init (project : Project) (hypervisor : Hypervisor) (fresh_uuid : String)
    (vm_id : Option String := none) (vm_type : Option String := none)
    (name : Option String := none) (console : Option Int := none)
    (console_type : String := "telnet") (properties : PDict := []) : VM :=
  { _project := project
    _hypervisor := hypervisor
    _id := match vm_id with
           | none => fresh_uuid
           | some v => v
    _name := name
    _vm_type := vm_type
    _console := console
    _console_type := console_type
    _properties := properties }

/-- The `id` property. -/
def VM.id (vm : VM) : String := vm._id

/-- The `vm_type` property. -/
def VM.vm_type (vm : VM) : Option String := vm._vm_type

/-- The `console` property. -/
def VM.console (vm : VM) : Option Int := vm._console

/-- The `console_type` property. -/
def VM.console_type (vm : VM) : String := vm._console_type

/-- The `properties` property. -/
def VM.properties (vm : VM) : PDict := vm._properties

/-- The one HTTP request `create()` issues through
`self._hypervisor.post`. -/
structure PostRequest where
  path : String
  data : PDict

/-- `VM.create`.  `data = self._properties` makes `data` an alias of the
instance's (and hence the constructor caller's) dict, so the four key
assignments mutate `self._properties` itself; the post-state VM carries
the mutated dict.  Returns the single POST request together with the
post-state. -/
def VM.create (vm : VM) : PostRequest × VM :=
  let data := vm._properties
  let data := dictSet data "vm_id" (PValue.str vm._id)
  let data := dictSet data "name" (optStr vm._name)
  let data := dictSet data "console" (optInt vm._console)
  let data := dictSet data "console_type" (PValue.str vm._console_type)
  (⟨"/projects/" ++ vm._project.id ++ "/" ++ pyFormat vm._vm_type ++ "/vms", data⟩,
   { vm with _properties := data })

/-- `VM.__json__`: the serialized representation, keys in source order. -/
def VM.json (vm : VM) : PDict :=
  [("hypervisor_id", PValue.str vm._hypervisor.id),
   ("project_id", PValue.str vm._project.id),
   ("vm_id", PValue.str vm._id),
   ("vm_type", optStr vm._vm_type),
   ("name", optStr vm._name),
   ("console", optInt vm._console),
   ("console_type", PValue.str vm._console_type),
   ("properties", PValue.dict vm._properties)]

/-- A concrete VM instance: constructed with an explicit `vm_id`, type
`vpcs`, name `PC1`, console 2001, and the defaulted `console_type` and
`properties` arguments. -/
def pcVM : VM :=
  VM.init ⟨"proj-1"⟩ ⟨"hyp-1"⟩ "f81d4fae-7dec-11d0-a765-00a0c91e6bf6"
    (some "vm-1") (some "vpcs") (some "PC1") (some 2001)

/-! ## Helper lemmas -/

/-- Looking a key up after a dict assignment: the assigned key maps to
the new value, every other key is unaffected. -/
theorem lookup_dictSet (d : PDict) (k k' : String) (v : PValue) :
    (dictSet d k v).lookup k' = if k' = k then some v else d.lookup k' := by
  induction d with
  | nil =>
    by_cases h : k' = k
    · simp [dictSet, List.lookup, h]
    · simp [dictSet, List.lookup, h, show (k' == k) = false from beq_eq_false_iff_ne.mpr h]
  | cons hd tl ih =>
    obtain ⟨k₀, v₀⟩ := hd
    by_cases h₀ : k₀ = k
    · subst h₀
      by_cases h : k' = k₀
      · simp [dictSet, List.lookup, h]
      · simp [dictSet, List.lookup, h,
          show (k' == k₀) = false from beq_eq_false_iff_ne.mpr h]
    · by_cases h : k' = k₀
      · subst h
        simp [dictSet, h₀, List.lookup, Ne.symm h₀]
      · simp [dictSet, h₀, List.lookup, ih,
          show (k' == k₀) = false from beq_eq_false_iff_ne.mpr h]

/-- Unfolding of `serverSettingsValid` into its per-field bounds and
cross-field validator conditions, in source order. -/
theorem serverSettingsValid_iff (s : ServerSettings) :
    serverSettingsValid s = true ↔
      (0 < s.console_start_port_range ∧ s.console_start_port_range ≤ 65535 ∧
       0 < s.console_end_port_range ∧ s.console_end_port_range ≤ 65535 ∧
       s.console_start_port_range < s.console_end_port_range ∧
       5900 ≤ s.vnc_console_start_port_range ∧ s.vnc_console_start_port_range ≤ 65535 ∧
       5900 ≤ s.vnc_console_end_port_range ∧ s.vnc_console_end_port_range ≤ 65535 ∧
       s.vnc_console_start_port_range < s.vnc_console_end_port_range ∧
       0 < s.udp_start_port_range ∧ s.udp_start_port_range ≤ 65535 ∧
       0 < s.udp_end_port_range ∧ s.udp_end_port_range ≤ 65535 ∧
       (s.enable_ssl = true → s.certfile.isSome = true ∧ s.certkey.isSome = true)) := by
  simp only [serverSettingsValid, portFieldOk, vncPortFieldOk, console_port_range,
    vnc_console_port_range, validate_enable_ssl, Bool.and_eq_true, decide_eq_true_eq]
  cases s.enable_ssl <;> simp <;> tauto

/-! ## Claim theorems -/

/-- C1 (counterexample): the claim is false for the UDP pair — an
otherwise-default configuration with `udp_end_port_range` (15000) less
than `udp_start_port_range` (20000) passes validation, because the
source has no ordering validator for the UDP pair. -/
theorem udp_range_inversion_accepted :
    serverSettingsValid invertedUdpSettings = true ∧
    invertedUdpSettings.udp_end_port_range ≤ invertedUdpSettings.udp_start_port_range := by
  exact ⟨by decide, by decide⟩

/-- C1 (amended): for the console and VNC console port-range pairs,
a configuration with `end ≤ start` fails validation; the UDP pair has
no such ordering check. -/
theorem console_vnc_range_inversion_rejected (s : ServerSettings)
    (h : s.console_end_port_range ≤ s.console_start_port_range ∨
         s.vnc_console_end_port_range ≤ s.vnc_console_start_port_range) :
    serverSettingsValid s = false := by
  rw [Bool.eq_false_iff]
  intro hv
  rw [serverSettingsValid_iff] at hv
  obtain ⟨-, -, -, -, h₁, -, -, -, -, h₂, -⟩ := hv
  omega

/-- Witness for C1's amended theorem at a concrete inverted console
range. -/
theorem console_vnc_range_inversion_rejected_witness :
    serverSettingsValid { defaultServerSettings with console_end_port_range := 4000 } = false :=
  console_vnc_range_inversion_rejected _ (Or.inl (by decide))

/-- C5: `enable_ssl = true` without both `certfile` and `certkey` fails
validation; the default configuration (`enable_ssl = false`, neither
set) passes, and so does SSL with both set. -/
theorem enable_ssl_requires_certfile_and_certkey :
    (∀ s : ServerSettings, s.enable_ssl = true →
        (s.certfile = none ∨ s.certkey = none) → serverSettingsValid s = false) ∧
    serverSettingsValid defaultServerSettings = true ∧
    serverSettingsValid { defaultServerSettings with
      enable_ssl := true
      certfile := some "/ssl/cert.pem"
      certkey := some "/ssl/key.pem" } = true := by
  refine ⟨?_, by decide, by decide⟩
  intro s hssl hmiss
  rw [Bool.eq_false_iff]
  intro hv
  rw [serverSettingsValid_iff] at hv
  obtain ⟨-, -, -, -, -, -, -, -, -, -, -, -, -, -, hcert⟩ := hv
  obtain ⟨hf, hk⟩ := hcert hssl
  rcases hmiss with hm | hm <;> simp [hm] at hf hk

/-- Witness for C5 at a concrete configuration: SSL enabled with no
certificate configured is rejected. -/
theorem enable_ssl_requires_certfile_and_certkey_witness :
    serverSettingsValid { defaultServerSettings with enable_ssl := true } = false :=
  enable_ssl_requires_certfile_and_certkey.1 _ rfl (Or.inl rfl)

/-- C9: any accepted configuration has both VNC bounds at least 5900;
a VNC bound of 5899 is rejected, while console and UDP bounds may take
any value in 1..65535 (here 1 and 65535). -/
theorem vnc_bounds_stricter_than_console_and_udp :
    (∀ s : ServerSettings, serverSettingsValid s = true →
        5900 ≤ s.vnc_console_start_port_range ∧ 5900 ≤ s.vnc_console_end_port_range) ∧
    serverSettingsValid vncBelow5900Settings = false ∧
    serverSettingsValid lowConsoleUdpSettings = true := by
  refine ⟨?_, by decide, by decide⟩
  intro s hv
  rw [serverSettingsValid_iff] at hv
  obtain ⟨-, -, -, -, -, h₁, -, h₂, -⟩ := hv
  exact ⟨h₁, h₂⟩

/-- Witness for C9 at the default configuration. -/
theorem vnc_bounds_stricter_witness :
    5900 ≤ defaultServerSettings.vnc_console_start_port_range ∧
    5900 ≤ defaultServerSettings.vnc_console_end_port_range :=
  vnc_bounds_stricter_than_console_and_udp.1 defaultServerSettings (by decide)

/-- C7: a missing or empty raw value yields the empty list; splitting
is on the setting's delimiter and preserves the segments and their
order — joining the split parts with the delimiter restores the
original string, and splitting a delimiter-joined non-empty segment
list returns exactly that list. -/
theorem path_list_settings_split :
    split_additional_images_paths none = [] ∧
    split_additional_images_paths (some []) = [] ∧
    split_allowed_interfaces none = [] ∧
    split_allowed_interfaces (some []) = [] ∧
    (∀ s : List Char, [';'].intercalate (split_additional_images_paths (some s)) = s) ∧
    (∀ s : List Char, [','].intercalate (split_allowed_interfaces (some s)) = s) ∧
    (∀ segs : List (List Char), segs ≠ [] → (∀ l ∈ segs, ';' ∉ l) →
        [';'].intercalate segs ≠ [] →
        split_additional_images_paths (some ([';'].intercalate segs)) = segs) := by
  refine ⟨rfl, rfl, rfl, rfl, ?_, ?_, ?_⟩
  · intro s
    by_cases h : s = []
    · simp [split_additional_images_paths, h, List.intercalate]
    · simp [split_additional_images_paths, h, List.intercalate_splitOn]
  · intro s
    by_cases h : s = []
    · simp [split_allowed_interfaces, h, List.intercalate]
    · simp [split_allowed_interfaces, h, List.intercalate_splitOn]
  · intro segs hne hfree hj
    simp only [split_additional_images_paths, if_neg hj]
    exact List.splitOn_intercalate segs ';' hfree hne

/-- Witness for C7 at a concrete two-segment list. -/
theorem path_list_settings_split_witness :
    split_additional_images_paths (some ([';'].intercalate [['a'], ['b']])) = [['a'], ['b']] :=
  path_list_settings_split.2.2.2.2.2.2 [['a'], ['b']] (by decide) (by decide) (by decide)

/-- C6: a requested path that resolves outside the project root gets
the not-found outcome from both the read and the write operation — the
very same outcome a read of an in-root but missing file gets; the
closing conjuncts replay the test scenario (`hello` readable,
missing `false` → 404, escaping `../hello` → 404 for read and write). -/
theorem path_escape_reported_as_not_found :
    (∀ (fs : ProjectFS) (req : List String) (c : String), resolvePath req = none →
        readProjectFile fs req = FileOutcome.notFound ∧
        writeProjectFile fs req c = FileOutcome.notFound) ∧
    (∀ (fs : ProjectFS) (req p : List String),
        resolvePath req = some p → fs.lookup p = none →
        readProjectFile fs req = FileOutcome.notFound) ∧
    readProjectFile [(["hello"], "world")] ["hello"] = FileOutcome.ok "world" ∧
    readProjectFile [(["hello"], "world")] ["false"] = FileOutcome.notFound ∧
    readProjectFile [(["hello"], "world")] ["..", "hello"] = FileOutcome.notFound ∧
    writeProjectFile [(["hello"], "world")] ["..", "hello"] "x" = FileOutcome.notFound := by
  refine ⟨?_, ?_, by decide, by decide, by decide, by decide⟩
  · intro fs req c h
    exact ⟨by simp [readProjectFile, h], by simp [writeProjectFile, h]⟩
  · intro fs req p h hm
    simp [readProjectFile, h, hm]

/-- Witness for C6 at a concrete escaping path and a concrete missing
file. -/
theorem path_escape_reported_as_not_found_witness :
    (readProjectFile [] ["..", "x"] = FileOutcome.notFound ∧
     writeProjectFile [] ["..", "x"] "c" = FileOutcome.notFound) ∧
    readProjectFile [] ["y"] = FileOutcome.notFound :=
  ⟨path_escape_reported_as_not_found.1 [] ["..", "x"] "c" (by decide),
   path_escape_reported_as_not_found.2.1 [] ["y"] ["y"] (by decide) (by decide)⟩

/-- C2 (code evaluation at the failing input): `create()` on a VM built
with the defaulted `properties` argument (the shared default dict,
empty) writes the `vm_id`/`name`/`console`/`console_type` entries into
that very dict — `data = self._properties` aliases it — so after
`create()` the mapping supplied at construction is no longer empty. -/
theorem create_mutates_default_properties :
    pcVM._properties = [] ∧
    ((VM.create pcVM).2)._properties =
      [("vm_id", PValue.str "vm-1"), ("name", PValue.str "PC1"),
       ("console", PValue.int 2001), ("console_type", PValue.str "telnet")] ∧
    ((VM.create pcVM).2)._properties ≠ pcVM._properties := by
  exact ⟨rfl, rfl, fun h => List.cons_ne_nil _ _ h⟩

/-- C3 (counterexample): the serialized representation of a concrete VM
has no `compute_id` key — the compute id sits under `hypervisor_id` —
so its key set is not the one the claim lists. -/
theorem json_lacks_compute_id_key :
    "compute_id" ∉ (VM.json pcVM).map Prod.fst ∧
    (VM.json pcVM).map Prod.fst ≠
      ["compute_id", "project_id", "vm_id", "vm_type", "name", "console",
       "console_type", "properties"] := by
  decide

/-- C3 (amended): the serialized representation has exactly the keys
`hypervisor_id`, `project_id`, `vm_id`, `vm_type`, `name`, `console`,
`console_type`, `properties`, in that order, holding the owning
hypervisor's (compute's) id, the owning project's id, the VM's id,
emulator type, name, console port, console type and full property
mapping. -/
theorem json_keys_and_values (vm : VM) :
    (VM.json vm).map Prod.fst =
      ["hypervisor_id", "project_id", "vm_id", "vm_type", "name", "console",
       "console_type", "properties"] ∧
    (VM.json vm).lookup "hypervisor_id" = some (PValue.str vm._hypervisor.id) ∧
    (VM.json vm).lookup "project_id" = some (PValue.str vm._project.id) ∧
    (VM.json vm).lookup "vm_id" = some (PValue.str (VM.id vm)) ∧
    (VM.json vm).lookup "vm_type" = some (optStr (VM.vm_type vm)) ∧
    (VM.json vm).lookup "name" = some (optStr vm._name) ∧
    (VM.json vm).lookup "console" = some (optInt (VM.console vm)) ∧
    (VM.json vm).lookup "console_type" = some (PValue.str (VM.console_type vm)) ∧
    (VM.json vm).lookup "properties" = some (PValue.dict (VM.properties vm)) := by
  refine ⟨rfl, rfl, rfl, rfl, rfl, rfl, rfl, rfl, rfl⟩

/-- C4: `create()` issues its one POST at
`/projects/{project_id}/{vm_type}/vms`, and the request body is the
VM's property mapping combined with the `vm_id`, `name`, `console` and
`console_type` entries: those four keys carry the VM's fields, every
other key is looked up exactly as in the property mapping. -/
theorem create_request_shape (vm : VM) :
    (VM.create vm).1.path =
      "/projects/" ++ vm._project.id ++ "/" ++ pyFormat vm._vm_type ++ "/vms" ∧
    (VM.create vm).1.data.lookup "vm_id" = some (PValue.str (VM.id vm)) ∧
    (VM.create vm).1.data.lookup "name" = some (optStr vm._name) ∧
    (VM.create vm).1.data.lookup "console" = some (optInt (VM.console vm)) ∧
    (VM.create vm).1.data.lookup "console_type" = some (PValue.str (VM.console_type vm)) ∧
    (∀ k : String, k ∉ ["vm_id", "name", "console", "console_type"] →
        (VM.create vm).1.data.lookup k = (VM.properties vm).lookup k) := by
  refine ⟨rfl, ?_, ?_, ?_, ?_, ?_⟩
  · simp [VM.create, VM.id, lookup_dictSet]
  · simp [VM.create, lookup_dictSet]
  · simp [VM.create, VM.console, lookup_dictSet]
  · simp [VM.create, VM.console_type, lookup_dictSet]
  · intro k hk
    simp only [List.mem_cons, List.not_mem_nil, or_false, not_or] at hk
    obtain ⟨h₁, h₂, h₃, h₄⟩ := hk
    simp [VM.create, VM.properties, lookup_dictSet, h₁, h₂, h₃, h₄]

/-- Witness for C4 at a concrete VM and a concrete non-reserved key. -/
theorem create_request_shape_witness :
    (VM.create pcVM).1.data.lookup "ram" = (VM.properties pcVM).lookup "ram" :=
  (create_request_shape pcVM).2.2.2.2.2 "ram" (by decide)

/-- C8: a VM constructed with a supplied `vm_id` has exactly that id, a
VM constructed without one has the freshly drawn UUID string as its id,
and `create()` — the only state-changing operation of the class —
leaves the id unchanged. -/
theorem vm_id_assignment :
    (∀ (p : Project) (h : Hypervisor) (fresh v : String) (vt n : Option String)
        (c : Option Int) (ct : String) (props : PDict),
        VM.id (VM.init p h fresh (some v) vt n c ct props) = v) ∧
    (∀ (p : Project) (h : Hypervisor) (fresh : String) (vt n : Option String)
        (c : Option Int) (ct : String) (props : PDict),
        VM.id (VM.init p h fresh none vt n c ct props) = fresh) ∧
    (∀ vm : VM, VM.id ((VM.create vm).2) = VM.id vm) :=
  ⟨fun _ _ _ _ _ _ _ _ _ => rfl, fun _ _ _ _ _ _ _ _ => rfl, fun _ => rfl⟩

/-- C10: a VM constructed with the `console_type` argument left at its
default has console type `"telnet"`, and that value appears under the
`console_type` key of its serialized representation. -/
theorem default_console_type_is_telnet :
    ∀ (p : Project) (h : Hypervisor) (fresh : String),
      VM.console_type (VM.init p h fresh) = "telnet" ∧
      (VM.json (VM.init p h fresh)).lookup "console_type" =
        some (PValue.str "telnet") :=
  fun _ _ _ => ⟨rfl, rfl⟩

end GNS3
